import Mathlib

/-!
A shallow embedding of `microbit_manager.py` (class `MicrobitManager`).

External effects (shell commands, filesystem queries) are modelled by an
`Env` record of oracles: each field holds the answer the OS would give to
the corresponding query during the operation under study.  The two USB
probing helpers `detect_microbit` and `get_microbit_block_device`, whose
internals only parse `lsusb`/`lsblk` output, are abstracted as the oracle
fields `connected` and `blockDevice`; every other method is translated
line by line.  Each operation additionally returns the ordered trace of
external calls it performed, so that "no command was attempted" is a
provable statement.  Timestamps are rendered with a UTC clock (the Python
code uses `datetime.fromtimestamp`, i.e. the local zone; a fixed
whole-minute zone offset does not affect any property proved here, all of
which concern minute-granularity ties or concrete 1970 dates).
-/

/-- The fixed mount point `self.mount_point = "/mnt/microbit"`. -/
def mount_point : String := "/mnt/microbit"

/-- Substring test on character lists: Python's `needle in hay`. -/
def inSub (needle : List Char) : List Char → Bool
  | [] => needle.isEmpty
  | c :: rest => needle.isPrefixOf (c :: rest) || inSub needle rest

/-- Python's `needle in hay` on strings (substring containment). -/
def pyIn (needle hay : String) : Bool := inSub needle.data hay.data

/-- Python's `str.lower()` (ASCII range; the diagnostics matched are ASCII). -/
def pyLower (s : String) : String := ⟨s.data.map Char.toLower⟩

/-- The whitespace set stripped by Python's `str.strip()` (ASCII range). -/
def pyIsSpace (c : Char) : Bool :=
  c = ' ' || c = '\t' || c = '\n' || c = '\r' || c = '\x0b' || c = '\x0c'

/-- Python's `str.strip()`. -/
def pyStrip (s : String) : String :=
  ⟨((s.data.dropWhile pyIsSpace).reverse.dropWhile pyIsSpace).reverse⟩

/-- Python's `os.path.basename`: the part after the last slash. -/
def pyBasename (p : String) : String :=
  ⟨(p.data.reverse.takeWhile (fun c => c ≠ '/')).reverse⟩

/-- Hexadecimal digit, as accepted by Python's `int(s, 16)`. -/
def isHexDig (c : Char) : Bool :=
  ('0' ≤ c && c ≤ '9') || ('a' ≤ c && c ≤ 'f') || ('A' ≤ c && c ≤ 'F')

/-- Continuation of a hex literal after its first digit: `(["_"] digit)*`. -/
def hexBody : List Char → Bool
  | [] => true
  | '_' :: [] => false
  | '_' :: c :: rest => isHexDig c && hexBody rest
  | c :: rest => isHexDig c && hexBody rest

/-- Nonempty run of hex digits with single underscores between digits. -/
def hexNum : List Char → Bool
  | [] => false
  | c :: rest => isHexDig c && hexBody rest

/-- Python's `int(s, 16)` succeeds: surrounding whitespace is stripped,
then an optional sign, an optional `0x`/`0X` prefix (an underscore may
follow the prefix), then underscore-grouped hex digits.  Whitespace is
legal only at the ends: `int("   1f ", 16)` parses, `int("+ 1f", 16)`
does not. -/
def pyIntParses16 (l : List Char) : Bool :=
  let l0 := ((l.dropWhile pyIsSpace).reverse.dropWhile pyIsSpace).reverse
  let l1 := match l0 with
    | '+' :: r => r
    | '-' :: r => r
    | r => r
  let l2 := match l1 with
    | '0' :: 'x' :: '_' :: r => r
    | '0' :: 'x' :: r => r
    | '0' :: 'X' :: '_' :: r => r
    | '0' :: 'X' :: r => r
    | r => r
  hexNum l2

/-- `stat` result fields used by the program (sizes in bytes, mtime as a
Unix timestamp in whole seconds). -/
structure FileStat where
  st_size : Nat
  st_mtime : Nat
  deriving Repr, DecidableEq

/-- Gregorian civil date from days since 1970-01-01 (Hinnant's algorithm,
as used for rendering `datetime.fromtimestamp` at a UTC clock). -/
def civilFromDays (days : Nat) : Nat × Nat × Nat :=
  let z := days + 719468
  let era := z / 146097
  let doe := z % 146097
  let yoe := (doe - doe / 1460 + doe / 36524 - doe / 146097) / 365
  let y := yoe + era * 400
  let doy := doe - (365 * yoe + yoe / 4 - yoe / 100)
  let mp := (5 * doy + 2) / 153
  let d := doy - (153 * mp + 2) / 5 + 1
  let m := if mp < 10 then mp + 3 else mp - 9
  (if m ≤ 2 then y + 1 else y, m, d)

/-- Two-digit zero padding, as in `strftime` `%m`/`%d`/`%H`/`%M`. -/
def pad2 (n : Nat) : String := if n < 10 then "0" ++ toString n else toString n

/-- `datetime.fromtimestamp(t).strftime('%Y-%m-%d %H:%M')` at a UTC clock.
Note the format has minute granularity: seconds are discarded. -/
def pyFmtMinute (t : Nat) : String :=
  let days := t / 86400
  let rem := t % 86400
  let c := civilFromDays days
  toString c.1 ++ "-" ++ pad2 c.2.1 ++ "-" ++ pad2 c.2.2 ++ " " ++
    pad2 (rem / 3600) ++ ":" ++ pad2 (rem % 3600 / 60)

/-- Outcome of the `open(...).read(100)` readability probe in
`copy_hex_file`: Python distinguishes `PermissionError` from other
exceptions. -/
inductive ReadErr where
  | permission
  | other (msg : String)
  deriving Repr, DecidableEq

/-- External calls an operation can perform, in order. -/
inductive Eff where
  | detect
  | resolve
  | shell (cmd : String)
  | fsexists (p : String)
  | fsisfile (p : String)
  | fsopen (p : String)
  | fsstatvfs (p : String)
  | fsgetsize (p : String)
  | fslistdir (p : String)
  deriving Repr, DecidableEq

/-- The OS/filesystem oracle: the answers the environment returns to each
external query during the operation under study. -/
structure Env where
  /-- Result of `detect_microbit` (abstracted `lsusb` parse). -/
  connected : Bool
  /-- Result of `get_microbit_block_device` (abstracted `lsblk` parse). -/
  blockDevice : Option String
  /-- Output of the `mount` table query (`run_command "mount"`). -/
  mountOutput : String
  /-- `run_command_with_error "sudo mkdir -p ..."`. -/
  mkdirResult : Bool × String
  /-- `run_command_with_error "sudo mount ..."`. -/
  mountResult : Bool × String
  /-- `run_command_with_error "sudo umount ..."`. -/
  umountResult : Bool × String
  /-- `os.path.exists`. -/
  pathExists : String → Bool
  /-- `os.path.isfile`. -/
  isFile : String → Bool
  /-- `open(p).readlines(100)`: the lines read, or the exception text. -/
  readLines : String → Except String (List String)
  /-- `open(p).read(100)` readability probe. -/
  readProbe : String → Except ReadErr Unit
  /-- `os.statvfs(mount_point)`: free bytes `f_frsize * f_bavail`, or an exception. -/
  statvfsFree : Except String Nat
  /-- `run_command_with_error "sudo cp ..."`. -/
  cpResult : Bool × String
  /-- `os.path.getsize`. -/
  getsize : String → Except String Nat
  /-- `os.listdir`. -/
  listdir : String → Except String (List String)
  /-- `os.stat`. -/
  stat : String → Except String FileStat
  /-- `self.downloads_dir.exists()`. -/
  downloadsExists : Bool
  /-- `self.downloads_dir.glob("*.hex")` with each entry's `stat`, in glob order. -/
  globHex : List (String × FileStat)
  /-- `str(self.downloads_dir)`. -/
  downloadsDir : String

/-- The mutable fields of `MicrobitManager` that the device-state core
reads and writes (`status_message`, `selected_file_idx` and
`show_info_area` are presentation-only and never feed back into the
mount/copy logic). -/
structure ManagerState where
  is_mounted : Bool
  microbit_device : Option String
  manual_unmount : Bool
  deriving Repr, DecidableEq

/-- `__init__`: not mounted, no device, latch clear. -/
def initState : ManagerState := ⟨false, none, false⟩

/-- Result of one operation: the `(success, message)` pair the Python
method returns, the manager state afterwards, and the trace of external
calls performed. -/
structure OpResult where
  ok : Bool
  msg : String
  state : ManagerState
  trace : List Eff
  deriving Repr, DecidableEq

/-- `is_microbit_mounted`: the mount point appears in the `mount` output. -/
def is_microbit_mounted (env : Env) : Bool := pyIn mount_point env.mountOutput

/-- The `sudo mkdir -p {mount_point}` command line. -/
def mkdirCmd : String := "sudo mkdir -p " ++ mount_point

/-- The `sudo mount {device} {mount_point}` command line. -/
def mountCmd (device : String) : String :=
  "sudo mount " ++ device ++ " " ++ mount_point

/-- The `sudo umount {mount_point}` command line. -/
def umountCmd : String := "sudo umount " ++ mount_point

/-- The `sudo cp '{src}' '{dst}'` command line. -/
def cpCmd (src dst : String) : String :=
  "sudo cp '" ++ src ++ "' '" ++ dst ++ "'"

/-- `mount_microbit`, lines 111-148 of the source. -/
def mount_microbit (env : Env) (s : ManagerState) : OpResult :=
  match env.blockDevice with
  | none => ⟨false, "No microbit block device found", s, [Eff.resolve]⟩
  | some device =>
    if is_microbit_mounted env then
      ⟨true, ("Already mounted " ++ device ++ " to " ++ mount_point),
        { s with is_mounted := true, microbit_device := some device },
        [Eff.resolve, Eff.shell "mount"]⟩
    else if env.mkdirResult.1 = false then
      ⟨false, "Failed to create mount point: " ++ env.mkdirResult.2, s,
        [Eff.resolve, Eff.shell "mount", Eff.shell mkdirCmd]⟩
    else
      let t := [Eff.resolve, Eff.shell "mount", Eff.shell mkdirCmd,
                Eff.shell (mountCmd device)]
      if env.mountResult.1 = true then
        ⟨true, ("Mounted " ++ device ++ " to " ++ mount_point),
          { s with is_mounted := true, microbit_device := some device }, t⟩
      else
        let result := env.mountResult.2
        let el := pyLower result
        if pyIn "already mounted" el then
          ⟨true, ("Already mounted " ++ device),
            { s with is_mounted := true, microbit_device := some device }, t⟩
        else if pyIn "permission denied" el then
          ⟨false, "Permission denied - run with sudo", s, t⟩
        else if pyIn "no such file or directory" el then
          ⟨false, ("Device " ++ device ++ " not found - microbit may have been disconnected"), s, t⟩
        else if pyIn "wrong fs type" el || pyIn "invalid argument" el then
          ⟨false, ("Cannot mount " ++ device ++ " - unsupported filesystem or corrupted device"), s, t⟩
        else
          ⟨false, ("Mount failed: " ++ result), s, t⟩

/-- `unmount_microbit`, lines 150-177 of the source.  The guard
`not self.is_mounted and not self.is_microbit_mounted()` short-circuits,
so the mount-table probe runs only when the local flag is already clear. -/
def unmount_microbit (env : Env) (s : ManagerState) : OpResult :=
  if s.is_mounted = false && is_microbit_mounted env = false then
    ⟨true, "Microbit not mounted", s, [Eff.shell "mount"]⟩
  else
    let t0 : List Eff := if s.is_mounted then [] else [Eff.shell "mount"]
    let t := t0 ++ [Eff.shell umountCmd]
    if env.umountResult.1 = true then
      ⟨true, "Microbit unmounted successfully",
        { s with is_mounted := false, microbit_device := none }, t⟩
    else
      let result := env.umountResult.2
      let el := pyLower result
      if pyIn "not mounted" el then
        ⟨true, "Microbit was not mounted",
          { s with is_mounted := false, microbit_device := none }, t⟩
      else if pyIn "device is busy" el || pyIn "target is busy" el then
        ⟨false, "Cannot unmount - device is busy (close any files or programs using it)", s, t⟩
      else if pyIn "permission denied" el then
        ⟨false, "Permission denied - run with sudo", s, t⟩
      else if pyIn "no such file or directory" el then
        ⟨true, "Mount point not found - considering unmounted",
          { s with is_mounted := false, microbit_device := none }, t⟩
      else
        ⟨false, ("Unmount failed: " ++ result), s, t⟩

/-- A confirming line of `validate_hex_file`: after stripping it starts
with the `:` marker, is at least 11 characters long, and the remainder
parses under `int(_, 16)` (lines 204-214 of the source). -/
def confirmingLine (raw : String) : Bool :=
  let line := pyStrip raw
  match line.data with
  | ':' :: rest => decide (line.length ≥ 11) && pyIntParses16 rest
  | _ => false

/-- `validate_hex_file`, lines 193-222 of the source.  `p` is the path;
`env.readLines p` is the outcome of `open(p).readlines(100)`. -/
def validate_hex_file (env : Env) (p : String) : Bool × String :=
  match env.readLines p with
  | Except.error e => (false, ("Cannot validate file: " ++ e))
  | Except.ok lines =>
    if lines.isEmpty then (false, "File is empty")
    else if (lines.take 10).countP confirmingLine = 0 then
      (false, "File does not appear to be in Intel HEX format")
    else (true, "Valid HEX file")

/-- Destination path of a copy: `f"{self.mount_point}/{filename}"`. -/
def destPath (hex_file_path : String) : String :=
  mount_point ++ "/" ++ pyBasename hex_file_path

/-- Body of `copy_hex_file`, lines 224-300 of the source: the returned
`(success, message)` pair and the trace of external calls, in order. -/
def copyCore (env : Env) (s : ManagerState) (hex_file_path : String) :
    (Bool × String) × List Eff :=
  if s.is_mounted = false then
    ((false, "Microbit not mounted"), [])
  else if env.pathExists hex_file_path = false then
    ((false, ("Source file not found: " ++ hex_file_path)),
      [Eff.fsexists hex_file_path])
  else if env.isFile hex_file_path = false then
    ((false, ("Source is not a file: " ++ hex_file_path)),
      [Eff.fsexists hex_file_path, Eff.fsisfile hex_file_path])
  else
    let t1 := [Eff.fsexists hex_file_path, Eff.fsisfile hex_file_path,
               Eff.fsopen hex_file_path]
    if (validate_hex_file env hex_file_path).1 = false then
      ((false, "Invalid HEX file: " ++ (validate_hex_file env hex_file_path).2), t1)
    else
      let t2 := t1 ++ [Eff.fsopen hex_file_path]
      match env.readProbe hex_file_path with
      | Except.error ReadErr.permission =>
        ((false, "Permission denied reading source file"), t2)
      | Except.error (ReadErr.other e) =>
        ((false, ("Cannot read source file: " ++ e)), t2)
      | Except.ok _ =>
        let filename := pyBasename hex_file_path
        let dest_path := destPath hex_file_path
        let t3 := t2 ++ [Eff.fsexists mount_point]
        if env.pathExists mount_point = false then
          ((false, "Mount point no longer exists - microbit may have been disconnected"), t3)
        else
          let spaceCheck : Option (Bool × String) × List Eff :=
            match env.statvfsFree with
            | Except.error _ => (none, [Eff.fsstatvfs mount_point])
            | Except.ok free_bytes =>
              match env.getsize hex_file_path with
              | Except.error _ =>
                (none, [Eff.fsstatvfs mount_point, Eff.fsgetsize hex_file_path])
              | Except.ok file_size =>
                (if free_bytes < file_size then
                  some (false, ("Not enough space on microbit (" ++ toString free_bytes ++ " bytes free, need " ++ toString file_size ++ ")"))
                 else none,
                 [Eff.fsstatvfs mount_point, Eff.fsgetsize hex_file_path])
          match spaceCheck.1 with
          | some failure => (failure, t3 ++ spaceCheck.2)
          | none =>
            let t4 := t3 ++ spaceCheck.2 ++ [Eff.shell (cpCmd hex_file_path dest_path)]
            if env.cpResult.1 = true then
              let t5 := t4 ++ [Eff.fsexists dest_path]
              if env.pathExists dest_path = false then
                ((false, "Copy appeared successful but file not found on microbit"), t5)
              else
                match env.getsize dest_path with
                | Except.error e =>
                  ((true, ("Copied " ++ filename ++ " (verification failed: " ++ e ++ ")")),
                    t5 ++ [Eff.fsgetsize dest_path])
                | Except.ok copied_size =>
                  match env.getsize hex_file_path with
                  | Except.error e =>
                    ((true, ("Copied " ++ filename ++ " (verification failed: " ++ e ++ ")")),
                      t5 ++ [Eff.fsgetsize dest_path, Eff.fsgetsize hex_file_path])
                  | Except.ok original_size =>
                    let t6 := t5 ++ [Eff.fsgetsize dest_path, Eff.fsgetsize hex_file_path]
                    if copied_size ≠ original_size then
                      ((false, ("Copy incomplete: " ++ toString copied_size ++ "/" ++ toString original_size ++ " bytes")), t6)
                    else
                      -- Python renders the byte count with a thousands
                      -- separator (`:,`); the grouping is not reproduced.
                      ((true, ("Successfully copied " ++ filename ++ " (" ++ toString copied_size ++ " bytes)")), t6)
            else
              let result := env.cpResult.2
              let el := pyLower result
              if pyIn "no space left" el then
                ((false, "No space left on microbit"), t4)
              else if pyIn "permission denied" el then
                ((false, "Permission denied - microbit may be read-only or disconnected"), t4)
              else if pyIn "no such file" el then
                ((false, "Microbit disconnected during copy"), t4)
              else if pyIn "input/output error" el then
                ((false, "I/O error - microbit may have been disconnected"), t4)
              else
                ((false, ("Copy failed: " ++ result)), t4)

/-- `copy_hex_file` never writes the manager's own state; package the
core result with the unchanged state. -/
def copy_hex_file (env : Env) (s : ManagerState) (hex_file_path : String) :
    OpResult :=
  let r := copyCore env s hex_file_path
  ⟨r.1.1, r.1.2, s, r.2⟩

/-- One file entry of `get_microbit_files` / `get_hex_files` listings. -/
structure DevEntry where
  name : String
  size : Nat
  mtime : String
  deriving Repr, DecidableEq

/-- The entry `get_microbit_files` builds for one `os.listdir` item:
skipped unless `os.path.isfile`; if `os.stat` raises, the file is still
listed with size 0 and mtime `"unknown"` (lines 309-325 of the source). -/
def devEntryOf (env : Env) (item : String) : Option DevEntry :=
  let item_path := mount_point ++ "/" ++ item
  if env.isFile item_path then
    some (match env.stat item_path with
      | Except.ok st => ⟨item, st.st_size, pyFmtMinute st.st_mtime⟩
      | Except.error _ => ⟨item, 0, "unknown"⟩)
  else none

/-- `get_microbit_files`, lines 302-328 of the source.  Python's `sorted`
is a stable merge sort; `List.mergeSort` is stable with the same tie
behaviour. -/
def get_microbit_files (env : Env) (s : ManagerState) : Option (List DevEntry) :=
  if s.is_mounted = false || env.pathExists mount_point = false then none
  else
    match env.listdir mount_point with
    | Except.error _ => none
    | Except.ok items =>
      some ((items.filterMap (devEntryOf env)).mergeSort
        (fun a b => decide (a.name ≤ b.name)))

/-- One record built by `get_hex_files` for a `*.hex` glob entry. -/
structure HexFile where
  name : String
  path : String
  size : Nat
  mtime : String
  deriving Repr, DecidableEq

/-- `get_hex_files`, lines 179-191 of the source: the sort key is the
`'%Y-%m-%d %H:%M'`-formatted mtime string, descending (`reverse=True`,
stable). -/
def get_hex_files (env : Env) : List HexFile :=
  let hex_files : List HexFile :=
    if env.downloadsExists then
      env.globHex.map (fun nf =>
        ⟨nf.1, env.downloadsDir ++ "/" ++ nf.1, nf.2.st_size,
          pyFmtMinute nf.2.st_mtime⟩)
    else []
  hex_files.mergeSort (fun a b => decide (b.mtime ≤ a.mtime))

/-- The keys of `main_loop` that can affect the device-state core: `'m'`
(mount toggle) or anything else (`ENTER` runs `copy_hex_file`, which does
not write manager state; the remaining keys only touch presentation
fields). -/
inductive Key where
  | km
  | kother
  deriving Repr, DecidableEq

/-- The per-cycle status check of `main_loop`, lines 581-595 of the
source (`detect_microbit` first, then auto-mount / auto-unmount / latch
reset). -/
def poll_status (env : Env) (s : ManagerState) : ManagerState × List Eff :=
  if env.connected && !s.is_mounted && !s.manual_unmount then
    let r := mount_microbit env s
    (r.state, Eff.detect :: r.trace)
  else if !env.connected && s.is_mounted then
    let r := unmount_microbit env s
    ({ r.state with manual_unmount := false }, Eff.detect :: r.trace)
  else if !env.connected then
    ({ s with manual_unmount := false }, [Eff.detect])
  else (s, [Eff.detect])

/-- The `'m'`-key handler of `main_loop`, lines 644-653 of the source:
on a successful unmount the latch is set; on a successful mount it is
cleared; on failure the latch is untouched. -/
def handle_key (env : Env) (s : ManagerState) (k : Key) : ManagerState × List Eff :=
  match k with
  | Key.km =>
    if s.is_mounted then
      let r := unmount_microbit env s
      (if r.ok then { r.state with manual_unmount := true } else r.state, r.trace)
    else
      let r := mount_microbit env s
      (if r.ok then { r.state with manual_unmount := false } else r.state, r.trace)
  | Key.kother => (s, [])

/-- One full iteration of `main_loop`: status check, then key handling. -/
def poll_cycle (env : Env) (s : ManagerState) (k : Key) : ManagerState × List Eff :=
  let r1 := poll_status env s
  let r2 := handle_key env r1.1 k
  (r2.1, r1.2 ++ r2.2)

/-- An operation of an execution history; each carries the environment
(the OS answers) of its own cycle. -/
inductive Op where
  | mount (env : Env)
  | unmount (env : Env)
  | copy (env : Env) (p : String)
  | poll (env : Env) (k : Key)

/-- State after one operation. -/
def applyOp (s : ManagerState) : Op → ManagerState
  | Op.mount env => (mount_microbit env s).state
  | Op.unmount env => (unmount_microbit env s).state
  | Op.copy env p => (copy_hex_file env s p).state
  | Op.poll env k => (poll_cycle env s k).1

/-- State reached from `__init__` by a sequence of operations. -/
def runOps (ops : List Op) : ManagerState := ops.foldl applyOp initState

/-- The representation invariant tying the two mount fields together:
`microbit_device` is set exactly when `is_mounted` is. -/
def StateOk (s : ManagerState) : Prop :=
  s.microbit_device.isSome = s.is_mounted

/-- A manager that believes the device mounted (as after a successful
`mount_microbit` of `/dev/sdb`). -/
def sMounted : ManagerState := ⟨true, some "/dev/sdb", false⟩

/-- A neutral environment: device absent, every command fails, every
filesystem query answers negatively.  Concrete environments below
override the fields they exercise. -/
def baseEnv : Env := {
  connected := false
  blockDevice := none
  mountOutput := ""
  mkdirResult := (true, "")
  mountResult := (false, "")
  umountResult := (false, "")
  pathExists := fun _ => false
  isFile := fun _ => false
  readLines := fun _ => Except.error "unreadable"
  readProbe := fun _ => Except.ok ()
  statvfsFree := Except.error "statvfs failed"
  cpResult := (false, "")
  getsize := fun _ => Except.error "nosize"
  listdir := fun _ => Except.error "nolist"
  stat := fun _ => Except.error "nostat"
  downloadsExists := false
  globHex := []
  downloadsDir := "/root/Downloads" }

/-- Environment where the block device resolves and the mount command
succeeds. -/
def envMountOk : Env :=
  { baseEnv with blockDevice := some "/dev/sdb", mountResult := (true, "") }

/-- Environment where the umount command succeeds. -/
def envUnmountOk : Env := { baseEnv with umountResult := (true, "") }

/-- Environment where the device resolves and the mount table already
shows the mount point (for the idempotence claim). -/
def envIdem : Env :=
  { baseEnv with blockDevice := some "/dev/sdb",
                 mountOutput := "/dev/sdb on /mnt/microbit type vfat (rw)" }

/-- Environment whose umount diagnostic contains both a busy marker and
the digits of `"not mounted"`. -/
def envBusyNotMounted : Env :=
  { baseEnv with
      umountResult := (false, "umount: /mnt/microbit: target is busy (not mounted?)") }

/-- Environment whose umount diagnostic is a plain busy report. -/
def envBusyOnly : Env :=
  { baseEnv with
      umountResult := (false, "umount: /mnt/microbit: target is busy.") }

/-- Environment where a copy goes through and both size reads agree. -/
def envCopyOk : Env :=
  { baseEnv with
      pathExists := fun _ => true
      isFile := fun _ => true
      readLines := fun _ => Except.ok [":00000001FF"]
      statvfsFree := Except.ok 1000000
      cpResult := (true, "")
      getsize := fun _ => Except.ok 116 }

/-- Environment where a copy goes through but both size reads raise. -/
def envCopyNoVerify : Env :=
  { baseEnv with
      pathExists := fun _ => true
      isFile := fun _ => true
      readLines := fun _ => Except.ok [":00000001FF"]
      statvfsFree := Except.ok 1000000
      cpResult := (true, "")
      getsize := fun _ => Except.error "boom" }

/-- Environment with a valid single-line HEX file. -/
def envHexValid : Env :=
  { baseEnv with readLines := fun _ => Except.ok [":00000001FF"] }

/-- Environment with a latched, still-connected device. -/
def envConnected : Env := { baseEnv with connected := true }

/-- Environment where the device is mounted with two files on it, one of
whose `os.stat` calls raises. -/
def envListing : Env :=
  { baseEnv with
      pathExists := fun _ => true
      isFile := fun _ => true
      listdir := fun _ => Except.ok ["b.txt", "a.txt"]
      stat := fun p => if p = "/mnt/microbit/a.txt"
        then Except.ok ⟨42, 60⟩ else Except.error "stat raised" }

/-- Environment whose Downloads folder holds two `*.hex` files modified
30 seconds apart, inside the same rendered minute, in glob order
oldest-first. -/
def envSameMinute : Env :=
  { baseEnv with
      downloadsExists := true
      globHex := [("a.hex", ⟨100, 0⟩), ("b.hex", ⟨100, 30⟩)]
      downloadsDir := "/home/user/Downloads" }

/-- The modification timestamp the environment holds for a named glob
entry (0 when absent). -/
def globMtime (env : Env) (n : String) : Nat :=
  (env.globHex.findSome? (fun nf =>
    if nf.1 = n then some nf.2.st_mtime else none)).getD 0

theorem stateOk_init : StateOk initState := rfl

theorem stateOk_mount (env : Env) (s : ManagerState) (h : StateOk s) :
    StateOk (mount_microbit env s).state := by
  simp only [mount_microbit]
  cases env.blockDevice with
  | none => exact h
  | some d =>
    dsimp only
    repeat' split
    all_goals first | exact h | rfl

theorem stateOk_unmount (env : Env) (s : ManagerState) (h : StateOk s) :
    StateOk (unmount_microbit env s).state := by
  simp only [unmount_microbit]
  repeat' split
  all_goals first | exact h | rfl

theorem copy_state_eq (env : Env) (s : ManagerState) (p : String) :
    (copy_hex_file env s p).state = s := rfl

theorem stateOk_poll_status (env : Env) (s : ManagerState) (h : StateOk s) :
    StateOk (poll_status env s).1 := by
  simp only [poll_status]
  repeat' split
  all_goals first
    | exact h
    | exact stateOk_mount env s h
    | exact stateOk_unmount env s h

theorem stateOk_handle_key (env : Env) (s : ManagerState) (k : Key)
    (h : StateOk s) : StateOk (handle_key env s k).1 := by
  simp only [handle_key]
  cases k with
  | km =>
    dsimp only
    repeat' split
    all_goals first
      | exact stateOk_mount env s h
      | exact stateOk_unmount env s h
  | kother => exact h

theorem stateOk_applyOp (s : ManagerState) (op : Op) (h : StateOk s) :
    StateOk (applyOp s op) := by
  cases op with
  | mount env => exact stateOk_mount env s h
  | unmount env => exact stateOk_unmount env s h
  | copy env p => exact h
  | poll env k =>
    exact stateOk_handle_key env (poll_status env s).1 k (stateOk_poll_status env s h)

theorem stateOk_foldl (ops : List Op) (s : ManagerState) (h : StateOk s) :
    StateOk (ops.foldl applyOp s) := by
  induction ops generalizing s with
  | nil => exact h
  | cons op rest ih => exact ih _ (stateOk_applyOp s op h)

theorem stateOk_runOps (ops : List Op) : StateOk (runOps ops) :=
  stateOk_foldl ops initState stateOk_init

theorem mount_success_sets (env : Env) (s : ManagerState) :
    (mount_microbit env s).ok = true →
    (mount_microbit env s).state.is_mounted = true ∧
    (mount_microbit env s).state.microbit_device ≠ none := by
  simp only [mount_microbit]
  cases env.blockDevice with
  | none => intro h; exact absurd h (by simp)
  | some d =>
    dsimp only
    repeat' split
    all_goals intro h
    all_goals simp_all

theorem unmount_success_clears (env : Env) (s : ManagerState) (hs : StateOk s) :
    (unmount_microbit env s).ok = true →
    (unmount_microbit env s).state.is_mounted = false ∧
    (unmount_microbit env s).state.microbit_device = none := by
  simp only [unmount_microbit]
  by_cases hm : s.is_mounted = false
  · have hd : s.microbit_device = none := by
      cases hdd : s.microbit_device with
      | none => rfl
      | some d => rw [StateOk, hdd, hm] at hs; simp at hs
    repeat' split
    all_goals intro h
    all_goals simp_all
  · repeat' split
    all_goals intro h
    all_goals simp_all

/-- C1: on every state reachable from `__init__` by any sequence of
`mount_microbit` / `unmount_microbit` / `copy_hex_file` / poll cycles,
`is_mounted = true` implies `microbit_device` is non-null; moreover every
success path of `mount_microbit` records the device together with the
flag, and every success path of `unmount_microbit` clears both together. -/
theorem mb_mount_state_invariant (ops : List Op) (env : Env) :
    ((runOps ops).is_mounted = true → (runOps ops).microbit_device ≠ none) ∧
    ((mount_microbit env (runOps ops)).ok = true →
      (mount_microbit env (runOps ops)).state.is_mounted = true ∧
      (mount_microbit env (runOps ops)).state.microbit_device ≠ none) ∧
    ((unmount_microbit env (runOps ops)).ok = true →
      (unmount_microbit env (runOps ops)).state.is_mounted = false ∧
      (unmount_microbit env (runOps ops)).state.microbit_device = none) := by
  have hs := stateOk_runOps ops
  refine ⟨?_, mount_success_sets env (runOps ops),
    unmount_success_clears env (runOps ops) hs⟩
  intro hm
  rw [StateOk, hm] at hs
  cases hd : (runOps ops).microbit_device with
  | none => rw [hd] at hs; simp at hs
  | some d => simp

/-- Witness for C1 at a concrete history: one successful mount from the
initial state, then a successful unmount. -/
theorem mb_mount_state_invariant_w :
    (runOps [Op.mount envMountOk]).microbit_device ≠ none ∧
    (unmount_microbit envUnmountOk (runOps [Op.mount envMountOk])).state.microbit_device = none :=
  ⟨(mb_mount_state_invariant [Op.mount envMountOk] envUnmountOk).1 (by decide),
   ((mb_mount_state_invariant [Op.mount envMountOk] envUnmountOk).2.2 (by decide)).2⟩

/-- C5: when the block device resolves and the mount point is already in
the mount table, `mount_microbit` succeeds twice in a row and the second
call leaves the recorded device unchanged. -/
theorem mb_mount_idempotent (env : Env) (s : ManagerState) (d : String)
    (h1 : env.blockDevice = some d) (h2 : is_microbit_mounted env = true) :
    (mount_microbit env s).ok = true ∧
    (mount_microbit env (mount_microbit env s).state).ok = true ∧
    (mount_microbit env (mount_microbit env s).state).state.microbit_device =
      (mount_microbit env s).state.microbit_device := by
  simp [mount_microbit, h1, h2]

/-- Witness for C5: `/dev/sdb` resolved, mount table already lists the
mount point. -/
theorem mb_mount_idempotent_w :
    (mount_microbit envIdem initState).ok = true ∧
    (mount_microbit envIdem (mount_microbit envIdem initState).state).ok = true ∧
    (mount_microbit envIdem (mount_microbit envIdem initState).state).state.microbit_device =
      (mount_microbit envIdem initState).state.microbit_device :=
  mb_mount_idempotent envIdem initState "/dev/sdb" rfl (by decide)

/-- C7: with the local state unmounted, `copy_hex_file` fails immediately
with "Microbit not mounted" — an empty trace: no filesystem query,
validation, or shell command is performed. -/
theorem mb_copy_not_mounted (env : Env) (s : ManagerState) (p : String)
    (h : s.is_mounted = false) :
    copy_hex_file env s p = ⟨false, "Microbit not mounted", s, []⟩ := by
  simp [copy_hex_file, copyCore, h]

/-- Witness for C7 at the initial state. -/
theorem mb_copy_not_mounted_w :
    copy_hex_file baseEnv initState "/home/user/Downloads/f.hex" =
      ⟨false, "Microbit not mounted", initState, []⟩ :=
  mb_copy_not_mounted baseEnv initState "/home/user/Downloads/f.hex" rfl

/-- C2: (a) a successful user-initiated unmount (the `'m'` key while
mounted) sets the `manual_unmount` latch; (b) while the latch is set, a
poll cycle that detects the device connected and not mounted performs no
auto-mount — the state is unchanged and the only external call is the
USB detection; (c) whenever a poll detects the device disconnected the
latch is cleared; (d) a successful user-initiated re-mount clears the
latch. -/
theorem mb_manual_unmount_latch (env : Env) (s : ManagerState) :
    (s.is_mounted = true → (unmount_microbit env s).ok = true →
      (handle_key env s Key.km).1.manual_unmount = true) ∧
    (env.connected = true → s.is_mounted = false → s.manual_unmount = true →
      poll_status env s = (s, [Eff.detect])) ∧
    (env.connected = false → (poll_status env s).1.manual_unmount = false) ∧
    (s.is_mounted = false → (mount_microbit env s).ok = true →
      (handle_key env s Key.km).1.manual_unmount = false) := by
  refine ⟨?_, ?_, ?_, ?_⟩
  · intro hm hok
    simp [handle_key, hm, hok]
  · intro hc hm hl
    simp [poll_status, hc, hm, hl]
  · intro hc
    simp only [poll_status, hc]
    repeat' split
    all_goals simp_all
  · intro hm hok
    simp [handle_key, hm, hok]

/-- Witness for C2: a mounted state whose unmount succeeds latches; a
latched state with the device still connected polls to itself with only
the detection probe; a disconnected poll clears the latch; a successful
explicit mount clears it. -/
theorem mb_manual_unmount_latch_w :
    (handle_key envUnmountOk sMounted Key.km).1.manual_unmount = true ∧
    poll_status envConnected ⟨false, none, true⟩ =
      (⟨false, none, true⟩, [Eff.detect]) ∧
    (poll_status baseEnv ⟨false, none, true⟩).1.manual_unmount = false ∧
    (handle_key envMountOk initState Key.km).1.manual_unmount = false :=
  ⟨(mb_manual_unmount_latch envUnmountOk sMounted).1 rfl (by decide),
   (mb_manual_unmount_latch envConnected ⟨false, none, true⟩).2.1 rfl rfl rfl,
   (mb_manual_unmount_latch baseEnv ⟨false, none, true⟩).2.2.1 rfl,
   (mb_manual_unmount_latch envMountOk initState).2.2.2 rfl (by decide)⟩

/-- C3 counterexample: the claim quantifies over every diagnostic string
containing a busy marker, but the `"not mounted"` classification is
checked first (line 163 before line 167), so the diagnostic
`"umount: /mnt/microbit: target is busy (not mounted?)"` — which contains
`"target is busy"` — makes `unmount_microbit` report success, not a busy
failure. -/
theorem mb_unmount_busy_cex :
    pyIn "target is busy" (pyLower envBusyNotMounted.umountResult.2) = true ∧
    envBusyNotMounted.umountResult.1 = false ∧
    (unmount_microbit envBusyNotMounted sMounted).ok = true ∧
    (unmount_microbit envBusyNotMounted sMounted).msg = "Microbit was not mounted" := by
  refine ⟨by decide, rfl, by decide, by decide⟩

/-- C3 amended: for every diagnostic of a failed umount command that
contains "device is busy" or "target is busy" case-insensitively and does
not also contain "not mounted" (which the code classifies first, as
success), `unmount_microbit` reports failure with the busy message. -/
theorem mb_unmount_busy (env : Env) (s : ManagerState)
    (hreach : s.is_mounted = true ∨ is_microbit_mounted env = true)
    (hfail : env.umountResult.1 = false)
    (hnm : pyIn "not mounted" (pyLower env.umountResult.2) = false)
    (hbusy : pyIn "device is busy" (pyLower env.umountResult.2) = true ∨
             pyIn "target is busy" (pyLower env.umountResult.2) = true) :
    (unmount_microbit env s).ok = false ∧
    (unmount_microbit env s).msg =
      "Cannot unmount - device is busy (close any files or programs using it)" := by
  have hg : ¬(s.is_mounted = false ∧ is_microbit_mounted env = false) := by
    rcases hreach with h | h <;> simp [h]
  simp [unmount_microbit, hg, hfail, hnm, hbusy]

/-- Witness for C3's amended statement: a pure busy diagnostic on a
mounted state. -/
theorem mb_unmount_busy_w :
    (unmount_microbit envBusyOnly sMounted).ok = false ∧
    (unmount_microbit envBusyOnly sMounted).msg =
      "Cannot unmount - device is busy (close any files or programs using it)" :=
  mb_unmount_busy envBusyOnly sMounted (Or.inl rfl) rfl (by decide) (Or.inr (by decide))

/-- C6: for a readable non-empty file, if none of the first ten lines is
confirming (stripped line starting with the `:` marker, at least 11
characters, remainder parsing as hexadecimal), `validate_hex_file`
rejects it with the not-in-expected-format message (the code's literal
text is "File does not appear to be in Intel HEX format"); if at least
one confirming line exists it reports the file valid. -/
theorem mb_validate_format (env : Env) (p : String) (lines : List String)
    (hr : env.readLines p = Except.ok lines) (hne : lines ≠ []) :
    ((lines.take 10).countP confirmingLine = 0 →
      validate_hex_file env p =
        (false, "File does not appear to be in Intel HEX format")) ∧
    ((lines.take 10).countP confirmingLine ≠ 0 →
      validate_hex_file env p = (true, "Valid HEX file")) := by
  unfold validate_hex_file
  rw [hr]
  constructor <;> intro h <;> simp [hne, h]

/-- Witness for C6, both directions: a file whose only line is a valid
record line, a file whose record line carries whitespace after the
marker (accepted, since `int(_, 16)` strips surrounding whitespace), and
a file of plain prose. -/
theorem mb_validate_format_w :
    validate_hex_file envHexValid "/d/f.hex" = (true, "Valid HEX file") ∧
    validate_hex_file
      { baseEnv with readLines := fun _ => Except.ok [":   00aabbcc11"] }
      "/d/h.hex" = (true, "Valid HEX file") ∧
    validate_hex_file
      { baseEnv with readLines := fun _ => Except.ok ["hello", "world"] }
      "/d/g.hex" = (false, "File does not appear to be in Intel HEX format") :=
  ⟨(mb_validate_format envHexValid "/d/f.hex" [":00000001FF"] rfl (by decide)).2
      (by decide),
   (mb_validate_format
      { baseEnv with readLines := fun _ => Except.ok [":   00aabbcc11"] }
      "/d/h.hex" [":   00aabbcc11"] rfl (by decide)).2 (by decide),
   (mb_validate_format
      { baseEnv with readLines := fun _ => Except.ok ["hello", "world"] }
      "/d/g.hex" ["hello", "world"] rfl (by decide)).1 (by decide)⟩

/-- C4: when every pre-copy gate passes, the copy command reports
success, the destination exists and both size reads succeed, the result
is a success exactly when the sizes agree; on disagreement the result is
the partial-copy failure message. -/
theorem mb_copy_size_verification (env : Env) (s : ManagerState) (p : String)
    (c o : Nat)
    (hm : s.is_mounted = true)
    (hex1 : env.pathExists p = true)
    (hif : env.isFile p = true)
    (hval : (validate_hex_file env p).1 = true)
    (hrp : env.readProbe p = Except.ok ())
    (hmp : env.pathExists mount_point = true)
    (hgo : env.getsize p = Except.ok o)
    (hspace : ∀ f, env.statvfsFree = Except.ok f → o ≤ f)
    (hcp : env.cpResult.1 = true)
    (hdx : env.pathExists (destPath p) = true)
    (hgc : env.getsize (destPath p) = Except.ok c) :
    ((copy_hex_file env s p).ok = true ↔ c = o) ∧
    (c ≠ o → (copy_hex_file env s p).msg =
      "Copy incomplete: " ++ toString c ++ "/" ++ toString o ++ " bytes") := by
  have hdest : destPath p = mount_point ++ "/" ++ pyBasename p := rfl
  simp only [copy_hex_file, copyCore, hm, hex1, hif, hval, hrp, hmp, hgo, hcp,
    hdx, hgc, ← hdest]
  rcases hsv : env.statvfsFree with e | f
  · simp [hsv, hgc, hgo, hdx, hcp]
    by_cases hco : c = o <;> simp [hco]
  · have := hspace f hsv
    simp [hsv, hgc, hgo, hdx, hcp, Nat.not_lt.mpr this]
    by_cases hco : c = o <;> simp [hco]

/-- Witness for C4: a 116-byte file copied with matching sizes. -/
theorem mb_copy_size_verification_w :
    (copy_hex_file envCopyOk sMounted "/home/u/Downloads/f.hex").ok = true :=
  (mb_copy_size_verification envCopyOk sMounted "/home/u/Downloads/f.hex" 116 116
    rfl rfl rfl (by decide) rfl rfl rfl
    (fun f hf => by simp only [envCopyOk] at hf; cases hf; decide)
    rfl rfl rfl).1.mpr rfl

/-- C10 (implicit): when the copy command reports success and the
destination exists, but reading either file's size during post-copy
verification raises, `copy_hex_file` still returns success, with a
verification-failed note — success does not guarantee the size check
ran. -/
theorem mb_copy_verification_exception (env : Env) (s : ManagerState) (p : String)
    (hm : s.is_mounted = true)
    (hex1 : env.pathExists p = true)
    (hif : env.isFile p = true)
    (hval : (validate_hex_file env p).1 = true)
    (hrp : env.readProbe p = Except.ok ())
    (hmp : env.pathExists mount_point = true)
    (hspace : ∀ f sz, env.statvfsFree = Except.ok f →
      env.getsize p = Except.ok sz → sz ≤ f)
    (hcp : env.cpResult.1 = true)
    (hdx : env.pathExists (destPath p) = true) :
    (∀ e, env.getsize (destPath p) = Except.error e →
      (copy_hex_file env s p).ok = true ∧
      (copy_hex_file env s p).msg =
        "Copied " ++ pyBasename p ++ " (verification failed: " ++ e ++ ")") ∧
    (∀ c e, env.getsize (destPath p) = Except.ok c →
      env.getsize p = Except.error e →
      (copy_hex_file env s p).ok = true ∧
      (copy_hex_file env s p).msg =
        "Copied " ++ pyBasename p ++ " (verification failed: " ++ e ++ ")") := by
  constructor
  · intro e he
    simp only [copy_hex_file, copyCore, hm, hex1, hif, hval, hrp, hmp, hcp, hdx, he]
    rcases hsv : env.statvfsFree with e1 | f
    · rcases hgp : env.getsize p with e2 | sz <;>
        simp [hsv, hgp, hcp, hdx, he]
    · rcases hgp : env.getsize p with e2 | sz
      · simp [hsv, hgp, hcp, hdx, he]
      · have hle := hspace f sz hsv hgp
        simp [hsv, hgp, Nat.not_lt.mpr hle, hcp, hdx, he]
  · intro c e hc he
    simp only [copy_hex_file, copyCore, hm, hex1, hif, hval, hrp, hmp, hcp, hdx]
    rcases hsv : env.statvfsFree with e1 | f <;>
      simp [hsv, he, hc, hcp, hdx]

/-- Witness for C10: every size read raises, yet the copy reports
success with the verification-failed note. -/
theorem mb_copy_verification_exception_w :
    (copy_hex_file envCopyNoVerify sMounted "/home/u/Downloads/f.hex").ok = true ∧
    (copy_hex_file envCopyNoVerify sMounted "/home/u/Downloads/f.hex").msg =
      "Copied f.hex (verification failed: boom)" := by
  have h := (mb_copy_verification_exception envCopyNoVerify sMounted
    "/home/u/Downloads/f.hex" rfl rfl rfl (by decide) rfl rfl
    (fun f sz hsv hgp => by simp [envCopyNoVerify] at hgp) rfl rfl).1 "boom" rfl
  exact ⟨h.1, by rw [h.2]; decide⟩

/-- C8 counterexample: `get_microbit_files` also returns none while the
local state says mounted, when the mount point path no longer exists
(line 304 guards on `os.path.exists` as well as `is_mounted`), so
"when mounted it returns a sequence" fails as stated. -/
theorem mb_microbit_files_cex :
    sMounted.is_mounted = true ∧
    get_microbit_files baseEnv sMounted = none :=
  ⟨rfl, rfl⟩

/-- C8 amended: `get_microbit_files` returns none whenever the device is
not mounted — and also when the mount point path is gone or the listing
raises; when mounted with an existing mount point and a successful
listing it returns the entries sorted by name ascending, and an entry
whose `os.stat` raises is still included, with size 0 and time
"unknown". -/
theorem mb_microbit_files (env : Env) (s : ManagerState) :
    (s.is_mounted = false → get_microbit_files env s = none) ∧
    (∀ items, s.is_mounted = true → env.pathExists mount_point = true →
      env.listdir mount_point = Except.ok items →
      ∃ l, get_microbit_files env s = some l ∧
        l.Pairwise (fun a b => a.name ≤ b.name) ∧
        l.Perm (items.filterMap (devEntryOf env)) ∧
        (∀ it err, it ∈ items →
          env.isFile (mount_point ++ "/" ++ it) = true →
          env.stat (mount_point ++ "/" ++ it) = Except.error err →
          (⟨it, 0, "unknown"⟩ : DevEntry) ∈ l)) := by
  constructor
  · intro h
    simp [get_microbit_files, h]
  · intro items hm hmp hld
    refine ⟨(items.filterMap (devEntryOf env)).mergeSort
      (fun a b => decide (a.name ≤ b.name)), ?_, ?_, ?_, ?_⟩
    · simp [get_microbit_files, hm, hmp, hld]
    · have hp := @List.sorted_mergeSort DevEntry
        (fun a b => decide (a.name ≤ b.name))
        (fun a b c hab hbc => decide_eq_true
          (le_trans (of_decide_eq_true hab) (of_decide_eq_true hbc)))
        (fun a b => by simpa using le_total a.name b.name)
        (items.filterMap (devEntryOf env))
      exact hp.imp (fun h => of_decide_eq_true h)
    · exact List.mergeSort_perm _ _
    · intro it err hit hisf herr
      rw [List.mem_mergeSort]
      exact List.mem_filterMap.mpr ⟨it, hit, by simp [devEntryOf, hisf, herr]⟩

/-- Witness for C8's amended statement: two files in reverse name order,
the stat of one raising; the listing is sorted and keeps the failed
entry with size 0. -/
theorem mb_microbit_files_w :
    ∃ l, get_microbit_files envListing sMounted = some l ∧
      l.Pairwise (fun a b => a.name ≤ b.name) ∧
      (⟨"b.txt", 0, "unknown"⟩ : DevEntry) ∈ l := by
  obtain ⟨l, h1, h2, h3, h4⟩ :=
    (mb_microbit_files envListing sMounted).2 ["b.txt", "a.txt"] rfl rfl rfl
  exact ⟨l, h1, h2, h4 "b.txt" "stat raised" (by decide) rfl rfl⟩

/-- C9 counterexample: the sort key is the minute-resolution formatted
string, not the modification time.  Two files modified 30 seconds apart
(timestamps 0 and 30) render to the same `'%Y-%m-%d %H:%M'` key, so the
stable sort keeps glob order oldest-first: the result is not sorted by
modification time descending. -/
theorem mb_hex_sort_cex :
    (get_hex_files envSameMinute).map (fun f => globMtime envSameMinute f.name) =
      [0, 30] ∧
    ¬ (get_hex_files envSameMinute).Pairwise
        (fun a b => globMtime envSameMinute b.name ≤ globMtime envSameMinute a.name) := by
  have heq : get_hex_files envSameMinute =
      [⟨"a.hex", "/home/user/Downloads/a.hex", 100, pyFmtMinute 0⟩,
       ⟨"b.hex", "/home/user/Downloads/b.hex", 100, pyFmtMinute 30⟩] := by
    have hsub : List.Sublist
        [(⟨"a.hex", "/home/user/Downloads/a.hex", 100, pyFmtMinute 0⟩ : HexFile),
         ⟨"b.hex", "/home/user/Downloads/b.hex", 100, pyFmtMinute 30⟩]
        (get_hex_files envSameMinute) :=
      List.pair_sublist_mergeSort
        (fun a b c hab hbc => decide_eq_true
          (le_trans (of_decide_eq_true hbc) (of_decide_eq_true hab)))
        (fun a b => by simpa using le_total b.mtime a.mtime)
        (decide_eq_true (le_of_eq (by rfl))) (List.Sublist.refl _)
    have hlen : (get_hex_files envSameMinute).length = 2 := by
      show (List.mergeSort _ _).length = 2
      rw [List.length_mergeSort]; rfl
    exact (hsub.eq_of_length (by simpa using hlen.symm)).symm
  rw [heq]
  exact ⟨by decide, by decide⟩

/-- C9 amended: `get_hex_files` returns the directory's `*.hex` entries
(none when the directory is missing), sorted descending by the
minute-resolution formatted modification-time string; entries rendering
to the same minute keep directory order, which may disagree with true
modification-time order.  It is recomputed from the directory state on
every call (the embedding is a pure function of the environment alone). -/
theorem mb_hex_files_sorted (env : Env) :
    (get_hex_files env).Pairwise (fun a b => b.mtime ≤ a.mtime) ∧
    (env.downloadsExists = true →
      ((get_hex_files env).map (fun f => (f.name, f.size))).Perm
        (env.globHex.map (fun nf => (nf.1, nf.2.st_size)))) ∧
    (env.downloadsExists = false → get_hex_files env = []) := by
  refine ⟨?_, ?_, ?_⟩
  · simp only [get_hex_files]
    have hp := @List.sorted_mergeSort HexFile
      (fun a b => decide (b.mtime ≤ a.mtime))
      (fun a b c hab hbc => decide_eq_true
        (le_trans (of_decide_eq_true hbc) (of_decide_eq_true hab)))
      (fun a b => by simpa using le_total b.mtime a.mtime)
      (if env.downloadsExists then
        env.globHex.map (fun nf =>
          ⟨nf.1, env.downloadsDir ++ "/" ++ nf.1, nf.2.st_size,
            pyFmtMinute nf.2.st_mtime⟩)
       else [])
    exact hp.imp (fun h => of_decide_eq_true h)
  · intro h
    simp only [get_hex_files, h, if_true]
    have hp := List.mergeSort_perm
      (env.globHex.map (fun nf =>
        (⟨nf.1, env.downloadsDir ++ "/" ++ nf.1, nf.2.st_size,
          pyFmtMinute nf.2.st_mtime⟩ : HexFile)))
      (fun a b => decide (b.mtime ≤ a.mtime))
    have h2 := hp.map (fun f : HexFile => (f.name, f.size))
    have h3 : (env.globHex.map (fun nf =>
        (⟨nf.1, env.downloadsDir ++ "/" ++ nf.1, nf.2.st_size,
          pyFmtMinute nf.2.st_mtime⟩ : HexFile))).map
          (fun f => (f.name, f.size)) =
        env.globHex.map (fun nf => (nf.1, nf.2.st_size)) := by
      rw [List.map_map]; rfl
    rw [h3] at h2
    exact h2
  · intro h
    simp [get_hex_files, h]

/-- Witness for C9's amended statement: the same-minute directory and
the missing directory. -/
theorem mb_hex_files_sorted_w :
    ((get_hex_files envSameMinute).map (fun f => (f.name, f.size))).Perm
      (envSameMinute.globHex.map (fun nf => (nf.1, nf.2.st_size))) ∧
    get_hex_files baseEnv = [] :=
  ⟨(mb_hex_files_sorted envSameMinute).2.1 rfl,
   (mb_hex_files_sorted baseEnv).2.2 rfl⟩
